import Mathlib

/-!
Shallow embedding of `src/sync.py` (laplace-calendar-to-notion).

Dates are modelled as `Int` day numbers: `datetime.date` supports only
ordering and `timedelta` arithmetic in this program, both of which the
integers mirror (`- timedelta(days=1)` becomes `- 1`).  Strings stay
`String` / `List Char`.  Functions whose Python originals perform I/O are
embedded as pure functions of the data those calls return (the parsed iCal
components, the Notion query results) or as explicit state transformers
(the page-creation calls); logging is dropped, exceptions become `Except`.
-/

namespace Sync

/-- `GCalEvent` TypedDict of sync.py (summary, start, end, description, id).
`end` is a Lean keyword, hence the guillemets. -/
structure GCalEvent where
  summary : String
  start : Int
  «end» : Int
  description : String
  id : String
  deriving Repr, DecidableEq

/-- `GCalStay` TypedDict of sync.py: a `GCalEvent` plus the extracted
`guest` name. -/
structure GCalStay where
  summary : String
  start : Int
  «end» : Int
  description : String
  guest : String
  id : String
  deriving Repr, DecidableEq

/-- `NotionStay` TypedDict of sync.py. -/
structure NotionStay where
  id : String
  Paid : Bool
  Start : Int
  End : Int
  Guest : String
  Name : Option String
  GCalID : String
  deriving Repr, DecidableEq

/-- `NotionGuest` TypedDict of sync.py. -/
structure NotionGuest where
  id : String
  name : String
  deriving Repr, DecidableEq

/-! ### iCal components (input of `get_calendar_events`)

A VEVENT component as the Python code reads it from `cal.walk()`:
`dtstart`/`dtend` may carry a time-of-day (`isinstance(..., datetime)`),
`dtend` may be absent, `summary`/`description` may be absent
(`component.get(...)` returns `None`). -/

/-- One field of a parsed iCal date: the day number plus whether the value
was a `datetime` (carried a time component) rather than a plain `date`. -/
structure ICalDate where
  day : Int
  isDateTime : Bool
  deriving Repr, DecidableEq

/-- A component yielded by `cal.walk()` in `get_calendar_events`. -/
structure ICalComponent where
  name : String
  summary : Option String
  dtstart : ICalDate
  dtend : Option ICalDate
  description : Option String
  uid : String
  deriving Repr, DecidableEq

/-- Python `str(x)` applied to `component.get("summary")`:
`str(None) = "None"`. -/
def strOfOpt (s : Option String) : String :=
  match s with
  | none => "None"
  | some t => t

/-- Python `str(component.get("description", ""))`: absent key defaults to
the empty string. -/
def strOfOptDefault (s : Option String) : String :=
  match s with
  | none => ""
  | some t => t

/-- The loop body of `get_calendar_events` for one walked component:
skip non-VEVENTs, skip events whose start is a datetime, skip events with
no end, skip events whose end is a datetime, then apply the window test
`time_ago <= start <= now`. -/
def eventOfComponent (days_ago : Option Int) (today : Int)
    (c : ICalComponent) : Option GCalEvent :=
  if c.name ≠ "VEVENT" then none
  else if c.dtstart.isDateTime then none
  else
    match c.dtend with
    | none => none
    | some e =>
      if e.isDateTime then none
      else
        match days_ago with
        | none =>
          some ⟨strOfOpt c.summary, c.dtstart.day, e.day,
                strOfOptDefault c.description, c.uid⟩
        | some d =>
          if today - d ≤ c.dtstart.day ∧ c.dtstart.day ≤ today then
            some ⟨strOfOpt c.summary, c.dtstart.day, e.day,
                  strOfOptDefault c.description, c.uid⟩
          else none

/-- `get_calendar_events`, embedded over the parsed components.
`days_ago` is the optional lookback window, `today` is `date.today()`.
Mirrors the loop of sync.py lines 80–117. -/
def get_calendar_events (days_ago : Option Int) (today : Int)
    (components : List ICalComponent) : List GCalEvent :=
  components.filterMap (eventOfComponent days_ago today)

/-! ### String helpers for `guest_name_from_summary` and `is_stay` -/

/-- A word character for Python's `\b` over this program's inputs: ASCII
alphanumerics, underscore, and Latin-1/Latin-Extended-A letters (so that
accented letters such as `à` count as word characters, as they do for
Python's Unicode `\b`). -/
def isWordChar (c : Char) : Bool :=
  c.isAlphanum || c == '_' ||
    (0xC0 ≤ c.toNat && c.toNat ≤ 0x17F && c.toNat ≠ 0xD7 && c.toNat ≠ 0xF7)

/-- Does the 8-character suffix of `s` match `[lL]a [pP]lace` (the
space-bearing alternative of the regex `\b[lL]a ?[pP]lace$`)? -/
def suffix8Matches (l : List Char) : Bool :=
  match l with
  | [c1, c2, c3, c4, c5, c6, c7, c8] =>
    (c1 == 'l' || c1 == 'L') && c2 == 'a' && c3 == ' ' &&
    (c4 == 'p' || c4 == 'P') && c5 == 'l' && c6 == 'a' && c7 == 'c' && c8 == 'e'
  | _ => false

/-- Does the 7-character suffix of `s` match `[lL]a[pP]lace` (the
space-free alternative of the regex)? -/
def suffix7Matches (l : List Char) : Bool :=
  match l with
  | [c1, c2, c4, c5, c6, c7, c8] =>
    (c1 == 'l' || c1 == 'L') && c2 == 'a' &&
    (c4 == 'p' || c4 == 'P') && c5 == 'l' && c6 == 'a' && c7 == 'c' && c8 == 'e'
  | _ => false

/-- The `\b` test for a match starting right after `pre`: the boundary
holds when `pre` is empty or its last character is not a word character
(the match itself always starts with the word character `l`/`L`). -/
def boundaryAfter (pre : List Char) : Bool :=
  match pre.getLast? with
  | none => true
  | some c => !(isWordChar c)

/-- `re.sub(r"\b[lL]a ?[pP]lace$", "", summary)`.  The `$`-anchored
pattern can start only 8 or 7 characters before the end; the regex engine
takes the leftmost (longer) match first. -/
def stripLaplaceSuffix (l : List Char) : List Char :=
  let n := l.length
  if suffix8Matches (l.drop (n - 8)) && boundaryAfter (l.take (n - 8)) then
    l.take (n - 8)
  else if suffix7Matches (l.drop (n - 7)) && boundaryAfter (l.take (n - 7)) then
    l.take (n - 7)
  else l

/-- Helper for `removeAll`, structurally recursive on a fuel argument so
that the kernel can evaluate it; with `fuel ≥ s.length` the fuel never
runs out because every step consumes at least one character. -/
def removeAllAux (pat : List Char) : Nat → List Char → List Char
  | 0, s => s
  | _ + 1, [] => []
  | fuel + 1, c :: rest =>
    if pat ≠ [] ∧ pat.isPrefixOf (c :: rest) then
      removeAllAux pat fuel ((c :: rest).drop pat.length)
    else
      c :: removeAllAux pat fuel rest

/-- Python `str.replace(pat, "")`: delete every non-overlapping occurrence
of `pat`, scanning left to right. -/
def removeAll (pat : List Char) (s : List Char) : List Char :=
  removeAllAux pat s.length s

/-- Python `str.strip()`: drop whitespace from both ends. -/
def stripWs (l : List Char) : List Char :=
  ((l.dropWhile Char.isWhitespace).reverse.dropWhile Char.isWhitespace).reverse

/-- `guest_name_from_summary` of sync.py lines 124–129: strip the trailing
`\b[lL]a ?[pP]lace$` suffix, delete every occurrence of `" at "`, delete
every occurrence of `"à"`, then trim whitespace. -/
def guest_name_from_summary (summary : String) : String :=
  ⟨stripWs (removeAll ['à'] (removeAll [' ', 'a', 't', ' ']
      (stripLaplaceSuffix summary.data)))⟩

/-- The condition of `is_stay` (sync.py line 132):
`"laplace" in event["summary"].lower().replace(" ", "")`. -/
def hasLaplaceMarker (summary : String) : Bool :=
  decide ("laplace".data <:+: (summary.data.map Char.toLower).filter (· ≠ ' '))

/-- The stay built from one kept event in the comprehension of
`filter_stay_events` (sync.py lines 139–151): every field copied verbatim,
plus the derived `guest`. -/
def stayOfEvent (e : GCalEvent) : GCalStay :=
  ⟨e.summary, e.start, e.«end», e.description,
   guest_name_from_summary e.summary, e.id⟩

/-- `filter_stay_events` of sync.py: the list comprehension keeping the
events satisfying `is_stay` and attaching the extracted guest name. -/
def filter_stay_events (events : List GCalEvent) : List GCalStay :=
  events.filterMap fun e =>
    if hasLaplaceMarker e.summary then some (stayOfEvent e) else none

/-! ### The Notion stays query (`get_existing_notion_stays`)

One row of the stays-database query response, with exactly the optional
structure the Python access chains depend on.  `nameTitle` is `some parts`
when `"title" in properties["Name"]`; `guestRollup` is the list of first
plain-texts of the `Guest name` rollup array; `gcalRichText` models
`properties.get("GCal ID", {}).get("rich_text", [{}])` with its failure
modes: `none` stands for an absent `GCal ID` property or absent
`rich_text` key (the default `[{}]` then makes `[0]["plain_text"]` raise
`KeyError`), and each entry's `plain_text` is `none` when the dict lacks
that key.

The `Date` property mirrors the chain
`properties.get("Date", {}).get("date", {})` of sync.py line 174, which
has three observably different shapes:
  * `date = none`: the `Date` key (or its nested `date` key) is absent —
    the `.get` defaults produce `{}`, `start`/`end` come out `None`, and
    the row is skipped cleanly;
  * `date = some none`: the property is present with `"date": null` (how
    Notion reports a record whose date is unset) — `.get("date", {})`
    returns `None` (the default applies only to a missing key), and
    `None.get("start", None)` raises `AttributeError`, aborting the query;
  * `date = some (some r)`: an actual date dict; `r.start` / `r.end` are
    the parsed day numbers, `none` when the key is absent, null or empty
    (all falsy, all skipped identically).  Values that are present are
    taken as day numbers of valid ISO-8601 strings (Notion emits valid
    ISO dates, so `datetime.fromisoformat` does not fail on them). -/

structure RichTextEntry where
  plain_text : Option String
  deriving Repr, DecidableEq

/-- The nested `date` dict of a `Date` property. -/
structure DateRange where
  start : Option Int
  «end» : Option Int
  deriving Repr, DecidableEq

structure NotionStayItem where
  id : String
  nameTitle : Option (List String)
  paid : Bool
  date : Option (Option DateRange)
  guestRollup : List String
  gcalRichText : Option (List RichTextEntry)
  deriving Repr, DecidableEq

/-- The loop body of `get_existing_notion_stays` (sync.py lines 164–207)
for one result row: `.ok none` means the row is skipped with a warning,
`.error` means the Python code raises (uncaught) on this row.  Following
the source's order: name first, then the `Date` chain (where a null
`date` raises `AttributeError`), then the date-presence check, then the
guest rollup, then the `GCal ID` chain. -/
def processStayItem (item : NotionStayItem) : Except String (Option NotionStay) :=
  let name :=
    match item.nameTitle with
    | some parts => String.intercalate " " parts
    | none => "Empty stay"
  match item.date with
  | some none => .error "AttributeError: NoneType has no attribute get"
  | none => .ok none
  | some (some r) =>
    match r.start, r.«end» with
    | some s, some e =>
      let guest :=
        match item.guestRollup with
        | [] => "Unknown guest"
        | g :: _ => g
      match item.gcalRichText with
      | none => .error "KeyError: plain_text"
      | some [] => .error "IndexError: list index out of range"
      | some (entry :: _) =>
        match entry.plain_text with
        | none => .error "KeyError: plain_text"
        | some t =>
          if t = "" then .ok none
          else .ok (some ⟨item.id, item.paid, s, e, guest, some name, t⟩)
    | _, _ => .ok none

/-- `get_existing_notion_stays`, embedded over the query's result rows:
rows are processed in order, a skipped row contributes nothing, and an
exception aborts the whole function. -/
def get_existing_notion_stays : List NotionStayItem → Except String (List NotionStay)
  | [] => .ok []
  | item :: rest =>
    match processStayItem item with
    | .error e => .error e
    | .ok none => get_existing_notion_stays rest
    | .ok (some s) =>
      match get_existing_notion_stays rest with
      | .error e => .error e
      | .ok l => .ok (s :: l)

/-! ### The Notion guests query (`get_existing_notion_guests`) -/

/-- One row of the guests-database query response. -/
structure NotionGuestItem where
  id : String
  nameTitle : Option (List String)
  deriving Repr, DecidableEq

/-- The in-memory guest directory: Python's `Dict[str, NotionGuest]`,
modelled as an association list where insertion prepends and lookup takes
the first hit — observationally the same lookup/membership behaviour
(last write wins). -/
abbrev GuestDict := List (String × NotionGuest)

def dictLookup (d : GuestDict) (k : String) : Option NotionGuest :=
  match d with
  | [] => none
  | (k', v) :: rest => if k' = k then some v else dictLookup rest k

def dictInsert (d : GuestDict) (k : String) (v : NotionGuest) : GuestDict :=
  (k, v) :: d

/-- Python `str.lower()` (over the ASCII range, which is all this
program's lowercasing decisions depend on). -/
def lowerStr (s : String) : String :=
  ⟨s.data.map Char.toLower⟩

/-- The first-token key derivation of sync.py line 230:
`name.split(" ")[0].lower()` — the characters before the first space,
lowercased. -/
def firstNameKey (name : String) : String :=
  lowerStr ⟨name.data.takeWhile (· ≠ ' ')⟩

/-- `get_existing_notion_guests`, embedded over the query's result rows:
a row with no title is skipped with a warning; otherwise the guest is
stored under the lowercased first space-delimited token of its name. -/
def get_existing_notion_guests (items : List NotionGuestItem) : GuestDict :=
  items.foldl
    (fun guests item =>
      match item.nameTitle with
      | none => guests
      | some parts =>
        let name := String.intercalate " " parts
        dictInsert guests (firstNameKey name) ⟨item.id, name⟩)
    []

/-! ### Writes (`add_guest_to_notion`, `add_stay_to_notion`)

The two `notion.pages.create` calls are modelled by appending to logs in
an explicit state; fresh Notion page ids come from a counter. -/

/-- The properties `add_stay_to_notion` passes to `notion.pages.create`
for the stays database (sync.py lines 285–301). -/
structure CreatedStay where
  name : String
  dateStart : Int
  dateEnd : Int
  gcalId : String
  guestRelation : Option String
  deriving Repr, DecidableEq

/-- The mutable state of one run: the shared `existing_guests` dict plus
the record of external writes performed. -/
structure SyncState where
  guests : GuestDict
  createdGuests : List NotionGuest
  createdStays : List CreatedStay
  nextId : Nat
  deriving Repr, DecidableEq

/-- `add_guest_to_notion`: create a guest page with the given name and
return the new `NotionGuest` (its id is the fresh page id). -/
def add_guest_to_notion (guest : String) (st : SyncState) :
    NotionGuest × SyncState :=
  let g : NotionGuest := ⟨"page-" ++ toString st.nextId, guest⟩
  (g, { st with createdGuests := st.createdGuests ++ [g],
                nextId := st.nextId + 1 })

/-- `add_stay_to_notion` (sync.py lines 270–307): look the guest up in
`existing_guests` under `event["guest"].lower()` (the WHOLE name
lowercased, not the first token); on a miss, create the guest and insert
it into the shared dict under that same key; then create the stay page
with `start` unchanged and `end` minus one day, the summary as title, the
event id as `GCal ID`, and the guest relation when the id is non-empty
(Python truthiness of the id string). -/
def add_stay_to_notion (event : GCalStay) (st : SyncState) : SyncState :=
  let found :=
    match dictLookup st.guests (lowerStr event.guest) with
    | some g => (g.id, st)
    | none =>
      let created := add_guest_to_notion event.guest st
      (created.1.id,
       { created.2 with
           guests := dictInsert created.2.guests (lowerStr event.guest) created.1 })
  let props : CreatedStay :=
    ⟨event.summary, event.start, event.«end» - 1, event.id,
     if found.1 = "" then none else some found.1⟩
  { found.2 with createdStays := found.2.createdStays ++ [props] }

/-! ### The reconciler (`find_missing_gcal_stays`) -/

/-- `find_missing_gcal_stays` (sync.py lines 242–256): collect the set of
`GCalID`s of the existing Notion stays, then keep, in order, the calendar
stays whose `id` is not in it. -/
def find_missing_gcal_stays (gcal_stays : List GCalStay)
    (notion_stays : List NotionStay) : List GCalStay :=
  let existing_gcal_ids := notion_stays.map (·.GCalID)
  gcal_stays.filter (fun s => !(existing_gcal_ids.contains s.id))

/-! ### Helper lemmas -/

/-- A component with no `dtend` yields no event. -/
theorem eventOfComponent_eq_none_of_no_end (days_ago : Option Int) (today : Int)
    (c : ICalComponent) (h : c.dtend = none) :
    eventOfComponent days_ago today c = none := by
  unfold eventOfComponent
  rw [h]
  split
  · rfl
  · split <;> rfl

/-- Inversion for a produced event: its `start`/`end` are the component's
`dtstart`/`dtend` days. -/
theorem eventOfComponent_inv {days_ago : Option Int} {today : Int}
    {c : ICalComponent} {ev : GCalEvent}
    (h : eventOfComponent days_ago today c = some ev) :
    ev.start = c.dtstart.day ∧ ∃ e, c.dtend = some e ∧ ev.«end» = e.day := by
  unfold eventOfComponent at h
  by_cases h1 : c.name ≠ "VEVENT"
  · rw [if_pos h1] at h
    cases h
  · rw [if_neg h1] at h
    by_cases h2 : c.dtstart.isDateTime = true
    · rw [if_pos h2] at h
      cases h
    · rw [if_neg h2] at h
      cases hd : c.dtend with
      | none =>
        rw [hd] at h
        cases h
      | some e =>
        rw [hd] at h
        dsimp only at h
        by_cases h3 : e.isDateTime = true
        · rw [if_pos h3] at h
          cases h
        · rw [if_neg h3] at h
          cases days_ago with
          | none =>
            cases h
            exact ⟨rfl, e, rfl, rfl⟩
          | some d =>
            dsimp only at h
            by_cases h4 : today - d ≤ c.dtstart.day ∧ c.dtstart.day ≤ today
            · rw [if_pos h4] at h
              cases h
              exact ⟨rfl, e, rfl, rfl⟩
            · rw [if_neg h4] at h
              cases h

/-- Every stay emitted by `filter_stay_events` has the laplace marker in
its summary. -/
theorem marker_of_mem_filter_stay {events : List GCalEvent} {s : GCalStay}
    (hs : s ∈ filter_stay_events events) : hasLaplaceMarker s.summary = true := by
  unfold filter_stay_events at hs
  rw [List.mem_filterMap] at hs
  obtain ⟨e, _, he⟩ := hs
  by_cases h : hasLaplaceMarker e.summary
  · rw [if_pos h, Option.some_inj] at he
    rw [← he]
    exact h
  · rw [if_neg h] at he
    cases he

/-- Membership inversion for `filter_stay_events`. -/
theorem mem_filter_stay_inv {events : List GCalEvent} {s : GCalStay}
    (hs : s ∈ filter_stay_events events) :
    ∃ e ∈ events, hasLaplaceMarker e.summary = true ∧ s = stayOfEvent e := by
  unfold filter_stay_events at hs
  rw [List.mem_filterMap] at hs
  obtain ⟨e, hmem, he⟩ := hs
  by_cases h : hasLaplaceMarker e.summary
  · rw [if_pos h, Option.some_inj] at he
    exact ⟨e, hmem, h, he.symm⟩
  · rw [if_neg h] at he
    cases he

/-- Looking up the key just inserted returns the inserted value. -/
theorem dictLookup_insert (d : GuestDict) (k : String) (v : NotionGuest) :
    dictLookup (dictInsert d k v) k = some v := by
  simp [dictLookup, dictInsert]

/-- Effect of `add_stay_to_notion` when the (full, lowercased) guest name
is already a key of the shared dict: no guest is created, the dict is
unchanged, and the stay page is appended with the found guest's id. -/
theorem add_stay_hit {ev : GCalStay} {st : SyncState} {g : NotionGuest}
    (h : dictLookup st.guests (lowerStr ev.guest) = some g) :
    add_stay_to_notion ev st =
      { st with createdStays := st.createdStays ++
          [⟨ev.summary, ev.start, ev.«end» - 1, ev.id,
            if g.id = "" then none else some g.id⟩] } := by
  unfold add_stay_to_notion
  rw [h]

/-- Effect of `add_stay_to_notion` when the guest name misses the dict:
one guest page is created and inserted under the lowercased full name. -/
theorem add_stay_miss {ev : GCalStay} {st : SyncState}
    (h : dictLookup st.guests (lowerStr ev.guest) = none) :
    add_stay_to_notion ev st =
      { st with
          guests := dictInsert st.guests (lowerStr ev.guest)
            ⟨"page-" ++ toString st.nextId, ev.guest⟩,
          createdGuests := st.createdGuests ++
            [⟨"page-" ++ toString st.nextId, ev.guest⟩],
          nextId := st.nextId + 1,
          createdStays := st.createdStays ++
            [⟨ev.summary, ev.start, ev.«end» - 1, ev.id,
              if "page-" ++ toString st.nextId = "" then none
              else some ("page-" ++ toString st.nextId)⟩] } := by
  unfold add_stay_to_notion add_guest_to_notion
  rw [h]

/-- A row carrying a full date range: the `Date` property holds a date
dict with both `start` and `end` present (the only shape that reaches the
`GCal ID` chain). -/
def hasFullDate (it : NotionStayItem) : Bool :=
  match it.date with
  | some (some r) => r.start.isSome && r.«end».isSome
  | _ => false

/-- A stays-query row on which the Python loop body does not raise: the
`Date` property is not a null `date` (no `AttributeError`), and either
the row is skipped at the date check before the `GCal ID` chain runs, or
its first rich-text entry has a `plain_text` key. -/
def stayItemSafe (it : NotionStayItem) : Bool :=
  match it.date with
  | some none => false
  | none => true
  | some (some r) =>
    r.start.isNone || r.«end».isNone ||
      (match it.gcalRichText with
       | some (entry :: _) => entry.plain_text.isSome
       | _ => false)

/-- The record a safe row contributes: `none` when the row is skipped
(missing date range, or empty `GCal ID` text), otherwise the converted
`NotionStay` with a missing name defaulted to `"Empty stay"` and a missing
guest rollup defaulted to `"Unknown guest"`. -/
def stayItemValue (it : NotionStayItem) : Option NotionStay :=
  match it.date with
  | some (some r) =>
    match r.start, r.«end» with
    | some s, some e =>
      match it.gcalRichText with
      | some (entry :: _) =>
        match entry.plain_text with
        | some t =>
          if t = "" then none
          else
            some ⟨it.id, it.paid, s, e,
              (match it.guestRollup with
               | [] => "Unknown guest"
               | g :: _ => g),
              some (match it.nameTitle with
                    | some parts => String.intercalate " " parts
                    | none => "Empty stay"), t⟩
        | none => none
      | _ => none
    | _, _ => none
  | _ => none

/-- On a safe row, the loop body succeeds and contributes
`stayItemValue`. -/
theorem processStayItem_safe {it : NotionStayItem}
    (h : stayItemSafe it = true) :
    processStayItem it = .ok (stayItemValue it) := by
  unfold stayItemSafe at h
  unfold processStayItem stayItemValue
  cases hd : it.date with
  | none => rfl
  | some od =>
    cases od with
    | none => rw [hd] at h; cases h
    | some r =>
      rw [hd] at h
      dsimp only at h ⊢
      cases hs : r.start with
      | none => rfl
      | some s =>
        cases he : r.«end» with
        | none => rfl
        | some e =>
          rw [hs, he] at h
          simp only [Option.isNone_some, Bool.false_or] at h
          cases hg : it.gcalRichText with
          | none => rw [hg] at h; cases h
          | some l =>
            cases l with
            | nil => rw [hg] at h; cases h
            | cons entry rest =>
              rw [hg] at h
              dsimp only at h ⊢
              cases hp : entry.plain_text with
              | none => rw [hp] at h; cases h
              | some t =>
                dsimp only
                by_cases ht : t = ""
                · rw [if_pos ht, if_pos ht]
                · rw [if_neg ht, if_neg ht]

/-! ### Sample data used by witnesses and counterexamples -/

def sampleMatchedStay : GCalStay :=
  ⟨"Alice at Laplace", 0, 2, "", "Alice", "evt-1"⟩

/-- An existing Notion record carrying `sampleMatchedStay`'s id as its
`GCalID` but entirely different dates and guest name. -/
def sampleNotionRec : NotionStay :=
  ⟨"row-1", false, 100, 110, "Bob", some "Bob stay", "evt-1"⟩

def sampleNonMarkerEvent : GCalEvent :=
  ⟨"Dinner party", 0, 1, "", "evt-7"⟩

def sampleMarkerEvent : GCalEvent :=
  ⟨"Alice at Laplace", 3, 5, "desc", "evt-10"⟩

/-! ### Claim theorems -/

/-- C1: `find_missing_gcal_stays` returns exactly the subsequence, in
input order, of the calendar stays whose `id` does not appear among the
`GCalID` values of the existing Notion stays; in particular a calendar
stay whose `id` equals some existing record's `GCalID` is never reported
missing, regardless of its dates or guest name. -/
theorem find_missing_gcal_stays_spec (gcal_stays : List GCalStay)
    (notion_stays : List NotionStay) :
    find_missing_gcal_stays gcal_stays notion_stays =
      gcal_stays.filter (fun s => decide (∀ r ∈ notion_stays, r.GCalID ≠ s.id)) ∧
    ∀ s r, r ∈ notion_stays → r.GCalID = s.id →
      s ∉ find_missing_gcal_stays gcal_stays notion_stays := by
  have hfilter : find_missing_gcal_stays gcal_stays notion_stays =
      gcal_stays.filter (fun s => decide (∀ r ∈ notion_stays, r.GCalID ≠ s.id)) := by
    unfold find_missing_gcal_stays
    dsimp only
    apply List.filter_congr
    intro s _
    have h1 : ((notion_stays.map (fun r => r.GCalID)).contains s.id) =
        decide (s.id ∈ notion_stays.map (fun r => r.GCalID)) := by simp
    rw [h1, ← decide_not, decide_eq_decide]
    simp only [List.mem_map, not_exists, not_and]
  refine ⟨hfilter, ?_⟩
  intro s r hr hid hmem
  rw [hfilter, List.mem_filter] at hmem
  exact of_decide_eq_true hmem.2 r hr hid

/-- C1 witness: a stay whose id is already recorded is not reported
missing, even though dates and guest differ. -/
theorem find_missing_gcal_stays_spec_witness :
    sampleMatchedStay ∉ find_missing_gcal_stays [sampleMatchedStay] [sampleNotionRec] :=
  (find_missing_gcal_stays_spec [sampleMatchedStay] [sampleNotionRec]).2
    sampleMatchedStay sampleNotionRec (by decide) (by decide)

/-- C5: the three guest-name extraction examples of the spec hold of
`guest_name_from_summary`. -/
theorem guest_name_from_summary_examples :
    guest_name_from_summary "Alice at Laplace" = "Alice" ∧
    guest_name_from_summary "Bob à La Place" = "Bob" ∧
    guest_name_from_summary "Carol Laplace" = "Carol" :=
  ⟨by decide, by decide, by decide⟩

/-- C6: the stay page created by `add_stay_to_notion` carries the Stay's
start date unchanged and its exclusive end minus one day. -/
theorem add_stay_to_notion_dates (ev : GCalStay) (st : SyncState) :
    ∃ gref, (add_stay_to_notion ev st).createdStays =
      st.createdStays ++ [⟨ev.summary, ev.start, ev.«end» - 1, ev.id, gref⟩] := by
  cases h : dictLookup st.guests (lowerStr ev.guest) with
  | some g => exact ⟨_, by rw [add_stay_hit h]⟩
  | none => exact ⟨_, by rw [add_stay_miss h]⟩

/-- C7: an event whose summary lacks the case-insensitive,
space-stripped "laplace" token never appears in the output of
`filter_stay_events`. -/
theorem non_marker_event_not_in_stays (events : List GCalEvent)
    (e : GCalEvent) (hmem : e ∈ events)
    (h : hasLaplaceMarker e.summary = false) :
    stayOfEvent e ∉ filter_stay_events events := by
  intro hin
  have hm : hasLaplaceMarker e.summary = true := marker_of_mem_filter_stay hin
  rw [h] at hm
  cases hm

/-- C7 witness: a "Dinner party" event is filtered out. -/
theorem non_marker_event_not_in_stays_witness :
    stayOfEvent sampleNonMarkerEvent ∉ filter_stay_events [sampleNonMarkerEvent] :=
  non_marker_event_not_in_stays [sampleNonMarkerEvent] sampleNonMarkerEvent
    (by decide) (by decide)

/-- C10: `filter_stay_events` only filters and adds the derived `guest`:
every kept event's stay copies `summary`, `start`, `end`, `description`
and `id` verbatim. -/
theorem filter_stay_events_frame (events : List GCalEvent) :
    filter_stay_events events =
      (events.filter (fun e => hasLaplaceMarker e.summary)).map stayOfEvent ∧
    (∀ s ∈ filter_stay_events events, ∃ e ∈ events,
      hasLaplaceMarker e.summary = true ∧ s.summary = e.summary ∧
      s.start = e.start ∧ s.«end» = e.«end» ∧ s.description = e.description ∧
      s.id = e.id ∧ s.guest = guest_name_from_summary e.summary) ∧
    (∀ e ∈ events, hasLaplaceMarker e.summary = true →
      stayOfEvent e ∈ filter_stay_events events) := by
  refine ⟨?_, ?_, ?_⟩
  · induction events with
    | nil => rfl
    | cons e rest ih =>
      unfold filter_stay_events at ih ⊢
      rw [List.filterMap_cons, List.filter_cons]
      by_cases h : hasLaplaceMarker e.summary
      · rw [if_pos h, if_pos h, List.map_cons, ih]
      · rw [if_neg h, if_neg h, ih]
  · intro s hs
    obtain ⟨e, hmem, hm, hse⟩ := mem_filter_stay_inv hs
    subst hse
    exact ⟨e, hmem, hm, rfl, rfl, rfl, rfl, rfl, rfl⟩
  · intro e hmem hm
    unfold filter_stay_events
    rw [List.mem_filterMap]
    exact ⟨e, hmem, by rw [if_pos hm]⟩

/-- C10 witness: a kept concrete event appears in the output with all
fields copied. -/
theorem filter_stay_events_frame_witness :
    stayOfEvent sampleMarkerEvent ∈ filter_stay_events [sampleMarkerEvent] :=
  (filter_stay_events_frame [sampleMarkerEvent]).2.2 sampleMarkerEvent
    (by decide) (by decide)

/-! ### C2: guest resolution key -/

def sampleGuestRow : NotionGuestItem := ⟨"guest-row-1", some ["Alice", "Smith"]⟩

def sampleGuestDir : GuestDict := get_existing_notion_guests [sampleGuestRow]

def sampleTwoTokenStay : GCalStay :=
  ⟨"Alice Smith at Laplace", 0, 2, "", "Alice Smith", "evt-2"⟩

def sampleState : SyncState := ⟨sampleGuestDir, [], [], 0⟩

/-- C2 counterexample: the loaded directory keys guests by lowercased
FIRST token ("alice"), but `add_stay_to_notion` looks up the FULL
lowercased name ("alice smith"); so even though the first-token key of
"Alice Smith" is present in the directory, a guest-creation write is
performed. -/
theorem add_stay_first_token_counterexample :
    firstNameKey sampleTwoTokenStay.guest = "alice" ∧
    dictLookup sampleGuestDir "alice" = some ⟨"guest-row-1", "Alice Smith"⟩ ∧
    (add_stay_to_notion sampleTwoTokenStay sampleState).createdGuests =
      [⟨"page-0", "Alice Smith"⟩] :=
  ⟨by decide, by decide, by decide⟩

/-- C2 amended: resolution inside `add_stay_to_notion` keys on the FULL
lowercased guest name, not its first token: whenever the full lowercased
name is a key of the shared directory, the stored identity is used, no
guest-creation write happens and the directory is unchanged. -/
theorem add_stay_full_name_resolution (ev : GCalStay) (st : SyncState)
    (g : NotionGuest)
    (h : dictLookup st.guests (lowerStr ev.guest) = some g) :
    (add_stay_to_notion ev st).createdGuests = st.createdGuests ∧
    (add_stay_to_notion ev st).guests = st.guests ∧
    (add_stay_to_notion ev st).createdStays = st.createdStays ++
      [⟨ev.summary, ev.start, ev.«end» - 1, ev.id,
        if g.id = "" then none else some g.id⟩] := by
  rw [add_stay_hit h]
  exact ⟨rfl, rfl, rfl⟩

def sampleOneTokenStay : GCalStay :=
  ⟨"Alice at Laplace", 0, 2, "", "Alice", "evt-3"⟩

def sampleStateAlice : SyncState :=
  ⟨get_existing_notion_guests [⟨"guest-row-2", some ["Alice"]⟩], [], [], 0⟩

/-- C2 amended witness: a single-token guest name already in the
directory is resolved without any creation. -/
theorem add_stay_full_name_resolution_witness :
    (add_stay_to_notion sampleOneTokenStay sampleStateAlice).createdGuests =
      sampleStateAlice.createdGuests ∧
    (add_stay_to_notion sampleOneTokenStay sampleStateAlice).guests =
      sampleStateAlice.guests ∧
    (add_stay_to_notion sampleOneTokenStay sampleStateAlice).createdStays =
      sampleStateAlice.createdStays ++
        [⟨sampleOneTokenStay.summary, sampleOneTokenStay.start,
          sampleOneTokenStay.«end» - 1, sampleOneTokenStay.id,
          if (⟨"guest-row-2", "Alice"⟩ : NotionGuest).id = "" then none
          else some (⟨"guest-row-2", "Alice"⟩ : NotionGuest).id⟩] :=
  add_stay_full_name_resolution sampleOneTokenStay sampleStateAlice
    ⟨"guest-row-2", "Alice"⟩ (by decide)

/-! ### C3: events lacking an end date -/

def sampleNoEndComponent : ICalComponent :=
  ⟨"VEVENT", some "Alice at Laplace", ⟨0, false⟩, none, some "", "evt-4"⟩

/-- C3 counterexample: a raw event whose end is absent yields NO Stay at
all — in particular not one with end = start. -/
theorem no_end_event_dropped_counterexample :
    sampleNoEndComponent.dtend = none ∧
    get_calendar_events none 0 [sampleNoEndComponent] = [] :=
  ⟨rfl, rfl⟩

/-- C3 amended: a raw event with no end date is skipped (with a log), so
the produced event list equals the one over only the components that
carry an end. -/
theorem no_end_events_skipped (days_ago : Option Int) (today : Int)
    (comps : List ICalComponent) :
    get_calendar_events days_ago today comps =
      get_calendar_events days_ago today
        (comps.filter (fun c => c.dtend.isSome)) := by
  induction comps with
  | nil => rfl
  | cons c rest ih =>
    unfold get_calendar_events at ih ⊢
    rw [List.filter_cons]
    cases hd : c.dtend with
    | none =>
      rw [List.filterMap_cons,
        eventOfComponent_eq_none_of_no_end days_ago today c hd]
      simp only [hd, Option.isSome_none, Bool.false_eq_true, if_false]
      exact ih
    | some e =>
      simp only [hd, Option.isSome_some, if_true]
      rw [List.filterMap_cons, List.filterMap_cons, ih]

/-! ### C4: handling of malformed existing stay rows -/

def sampleGoodStayRow : NotionStayItem :=
  ⟨"row-2", some ["Good", "stay"], false, some (some ⟨some 10, some 12⟩),
   ["Alice"], some [⟨some "evt-5"⟩]⟩

/-- A row whose `GCal ID` property is entirely absent. -/
def sampleNoGcalRow : NotionStayItem :=
  ⟨"row-3", some ["Legacy", "stay"], false, some (some ⟨some 20, some 22⟩),
   ["Bob"], none⟩

/-- A row lacking a Name title (but well-formed otherwise). -/
def sampleNoNameRow : NotionStayItem :=
  ⟨"row-4", none, true, some (some ⟨some 30, some 32⟩), ["Carol"],
   some [⟨some "evt-6"⟩]⟩

/-- A row whose `Date` property is present with `"date": null` — how the
Notion API reports a record with no date set. -/
def sampleNullDateRow : NotionStayItem :=
  ⟨"row-5", some ["Dateless", "stay"], false, some none, ["Dana"],
   some [⟨some "evt-11"⟩]⟩

/-- The Python loop body raises `AttributeError` on a row whose `Date`
property holds a null `date`: `.get("date", {})` returns `None` and
`None.get("start", None)` has no such attribute. -/
theorem processStayItem_attr_error {it : NotionStayItem}
    (h : it.date = some none) :
    processStayItem it = .error "AttributeError: NoneType has no attribute get" := by
  unfold processStayItem
  rw [h]

/-- The Python loop body raises `KeyError` when a row with a full date
range has no `GCal ID` property at all. -/
theorem processStayItem_key_error {it : NotionStayItem}
    (h1 : hasFullDate it = true) (h3 : it.gcalRichText = none) :
    processStayItem it = .error "KeyError: plain_text" := by
  unfold hasFullDate at h1
  unfold processStayItem
  cases hd : it.date with
  | none => rw [hd] at h1; cases h1
  | some od =>
    cases od with
    | none => rw [hd] at h1; cases h1
    | some r =>
      rw [hd] at h1
      dsimp only at h1 ⊢
      rw [Bool.and_eq_true] at h1
      obtain ⟨s, hs⟩ := Option.isSome_iff_exists.mp h1.1
      obtain ⟨e, he⟩ := Option.isSome_iff_exists.mp h1.2
      rw [hs, he, h3]

/-- An exception raised on one row aborts the whole query, losing every
well-formed row before and after it. -/
theorem stays_error_propagates (pre post : List NotionStayItem)
    (bad : NotionStayItem) (msg : String)
    (hsafe : ∀ it ∈ pre, stayItemSafe it = true)
    (hbad : processStayItem bad = .error msg) :
    get_existing_notion_stays (pre ++ bad :: post) = .error msg := by
  induction pre with
  | nil =>
    rw [List.nil_append]
    unfold get_existing_notion_stays
    rw [hbad]
  | cons p rest ih =>
    rw [List.cons_append]
    unfold get_existing_notion_stays
    rw [processStayItem_safe (hsafe p (List.mem_cons_self p rest))]
    have ihe := ih (fun it hit => hsafe it (List.mem_cons_of_mem p hit))
    cases hv : stayItemValue p with
    | none => exact ihe
    | some s => rw [ihe]

/-- C4 counterexample: a response holding a well-formed row followed by a
row with a null `date`, or by a row whose `GCal ID` property is absent,
makes the whole query raise — the bad row is not skipped, and the
well-formed row is lost (it alone would have been returned). -/
theorem stays_query_raises_counterexample :
    get_existing_notion_stays [sampleGoodStayRow, sampleNullDateRow] =
      .error "AttributeError: NoneType has no attribute get" ∧
    get_existing_notion_stays [sampleGoodStayRow, sampleNoGcalRow] =
      .error "KeyError: plain_text" ∧
    get_existing_notion_stays [sampleGoodStayRow] =
      .ok [⟨"row-2", false, 10, 12, "Alice", some "Good stay", "evt-5"⟩] :=
  ⟨rfl, rfl, rfl⟩

/-- C4 amended: a row whose `Date` property or nested `date` key is
absent, or whose date dict lacks a start or an end, is skipped with a
warning and processing continues; a row lacking a Name is NOT skipped but
kept with the default name "Empty stay"; a row whose `GCal ID` text is
empty is skipped; but a row whose `Date` property is present with a null
`date` value raises an uncaught `AttributeError`, and a row with a full
date range and no `GCal ID` property (or no rich-text entry with a
`plain_text` key) raises an uncaught `KeyError` — in both cases aborting
the query and losing all well-formed rows. -/
theorem stays_query_skip_behaviour :
    (∀ items : List NotionStayItem, (∀ it ∈ items, stayItemSafe it = true) →
      get_existing_notion_stays items = .ok (items.filterMap stayItemValue)) ∧
    (∀ (pre post : List NotionStayItem) (bad : NotionStayItem),
      (∀ it ∈ pre, stayItemSafe it = true) →
      bad.date = some none →
      get_existing_notion_stays (pre ++ bad :: post) =
        .error "AttributeError: NoneType has no attribute get") ∧
    (∀ (pre post : List NotionStayItem) (bad : NotionStayItem),
      (∀ it ∈ pre, stayItemSafe it = true) →
      hasFullDate bad = true → bad.gcalRichText = none →
      get_existing_notion_stays (pre ++ bad :: post) =
        .error "KeyError: plain_text") := by
  refine ⟨?_,
    fun pre post bad hsafe hnull =>
      stays_error_propagates pre post bad _ hsafe
        (processStayItem_attr_error hnull),
    fun pre post bad hsafe h1 h3 =>
      stays_error_propagates pre post bad _ hsafe
        (processStayItem_key_error h1 h3)⟩
  intro items hsafe
  induction items with
  | nil => rfl
  | cons it rest ih =>
    unfold get_existing_notion_stays
    rw [processStayItem_safe (hsafe it (List.mem_cons_self it rest)),
      List.filterMap_cons,
      ih (fun x hx => hsafe x (List.mem_cons_of_mem it hx))]
    cases hv : stayItemValue it with
    | none => rfl
    | some s => rfl

/-- C4 amended witness: a row with no Name is kept (with the default
name) rather than skipped; a row with a null `date` aborts the query with
`AttributeError`; a row with no `GCal ID` property aborts it with
`KeyError`. -/
theorem stays_query_skip_behaviour_witness :
    get_existing_notion_stays [sampleNoNameRow] =
      .ok ([sampleNoNameRow].filterMap stayItemValue) ∧
    get_existing_notion_stays [sampleNullDateRow] =
      .error "AttributeError: NoneType has no attribute get" ∧
    get_existing_notion_stays [sampleNoGcalRow] =
      .error "KeyError: plain_text" :=
  ⟨stays_query_skip_behaviour.1 [sampleNoNameRow] (by decide),
   stays_query_skip_behaviour.2.1 [] [] sampleNullDateRow (by decide)
     (by decide),
   stays_query_skip_behaviour.2.2 [] [] sampleNoGcalRow (by decide)
     (by decide) (by decide)⟩

/-! ### C8: per-run idempotence of guest creation -/

def emptySyncState : SyncState := ⟨[], [], [], 0⟩

/-- C8: within one run, resolving the same guest name twice through
`add_stay_to_notion` creates at most one new guest: the first creation
inserts the identity into the shared dict, so the second resolution
finds it. -/
theorem resolve_twice_creates_at_most_one (ev1 ev2 : GCalStay)
    (st : SyncState) (h : ev1.guest = ev2.guest) :
    ((add_stay_to_notion ev2 (add_stay_to_notion ev1 st)).createdGuests).length ≤
      st.createdGuests.length + 1 := by
  cases h1 : dictLookup st.guests (lowerStr ev1.guest) with
  | some g =>
    rw [add_stay_hit h1]
    have h2 : dictLookup ({ st with createdStays := st.createdStays ++
        [⟨ev1.summary, ev1.start, ev1.«end» - 1, ev1.id,
          if g.id = "" then none else some g.id⟩] } : SyncState).guests
        (lowerStr ev2.guest) = some g := by
      show dictLookup st.guests (lowerStr ev2.guest) = some g
      rw [← h]
      exact h1
    rw [add_stay_hit h2]
    exact Nat.le_succ _
  | none =>
    rw [add_stay_miss h1]
    have h2 : dictLookup ({ st with
        guests := dictInsert st.guests (lowerStr ev1.guest)
          ⟨"page-" ++ toString st.nextId, ev1.guest⟩,
        createdGuests := st.createdGuests ++
          [⟨"page-" ++ toString st.nextId, ev1.guest⟩],
        nextId := st.nextId + 1,
        createdStays := st.createdStays ++
          [⟨ev1.summary, ev1.start, ev1.«end» - 1, ev1.id,
            if "page-" ++ toString st.nextId = "" then none
            else some ("page-" ++ toString st.nextId)⟩] } : SyncState).guests
        (lowerStr ev2.guest) =
        some ⟨"page-" ++ toString st.nextId, ev1.guest⟩ := by
      show dictLookup (dictInsert st.guests (lowerStr ev1.guest)
        ⟨"page-" ++ toString st.nextId, ev1.guest⟩)
        (lowerStr ev2.guest) = _
      rw [← h]
      exact dictLookup_insert _ _ _
    rw [add_stay_hit h2]
    show (st.createdGuests ++ [_]).length ≤ st.createdGuests.length + 1
    rw [List.length_append]
    exact Nat.le_refl _

/-- C8 witness: adding the same stay twice to an empty state creates
exactly one guest, hence at most one. -/
theorem resolve_twice_creates_at_most_one_witness :
    ((add_stay_to_notion sampleOneTokenStay
        (add_stay_to_notion sampleOneTokenStay emptySyncState)).createdGuests).length ≤
      emptySyncState.createdGuests.length + 1 :=
  resolve_twice_creates_at_most_one sampleOneTokenStay sampleOneTokenStay
    emptySyncState rfl

/-! ### C9: end ≥ start invariant -/

/-- A qualifying all-day component whose end day precedes its start
day. -/
def sampleReversedComponent : ICalComponent :=
  ⟨"VEVENT", some "Alice at Laplace", ⟨5, false⟩, some ⟨3, false⟩,
   some "", "evt-8"⟩

/-- C9 counterexample: the Normalizer emits a Stay with `end < start`
when the calendar feed supplies such dates — nothing enforces the
invariant. -/
theorem normalizer_end_lt_start_counterexample :
    ¬ (∀ s ∈ filter_stay_events
          (get_calendar_events none 0 [sampleReversedComponent]),
        s.start ≤ s.«end») := by
  decide

def sampleGoodComponent : ICalComponent :=
  ⟨"VEVENT", some "Alice at Laplace", ⟨3, false⟩, some ⟨5, false⟩,
   some "", "evt-9"⟩

/-- C9 amended: the Normalizer copies the source dates unchanged, so
every produced Stay satisfies end ≥ start whenever every source
component's end day is ≥ its start day. -/
theorem normalizer_preserves_date_order (days_ago : Option Int)
    (today : Int) (comps : List ICalComponent)
    (h : ∀ c ∈ comps, ∀ e, c.dtend = some e → c.dtstart.day ≤ e.day) :
    ∀ s ∈ filter_stay_events (get_calendar_events days_ago today comps),
      s.start ≤ s.«end» := by
  intro s hs
  obtain ⟨ev, hev, _, hse⟩ := mem_filter_stay_inv hs
  subst hse
  unfold get_calendar_events at hev
  rw [List.mem_filterMap] at hev
  obtain ⟨c, hc, hco⟩ := hev
  obtain ⟨h1, e, he, h2⟩ := eventOfComponent_inv hco
  show ev.start ≤ ev.«end»
  rw [h1, h2]
  exact h c hc e he

/-- C9 amended witness: with a well-ordered source component the produced
Stay satisfies end ≥ start. -/
theorem normalizer_preserves_date_order_witness :
    (⟨"Alice at Laplace", 3, 5, "", "Alice", "evt-9"⟩ : GCalStay).start ≤
      (⟨"Alice at Laplace", 3, 5, "", "Alice", "evt-9"⟩ : GCalStay).«end» :=
  normalizer_preserves_date_order none 0 [sampleGoodComponent] (by decide)
    _ (by decide)

end Sync
